import Mathlib

/-!
Verification of the robust_linker automation script.

This file gives a shallow embedding of src/robust_linker.py and proves the
spec claims about it.  Pure Python functions become Lean functions; the
effectful parts (HTTP posts to the messaging webhooks, posts to the alert
sink, and pauses) become explicit effect traces, parameterised by oracles
that supply the outcome of each network interaction.  The alert effect
records an invocation of NotificationService.send_ntfy_alert, that is, a
call handed to the alert sink.
-/

/-! ## String helpers

Python substring containment (the `in` operator) and `str.lower` are
modelled over the character list of a string, so that they reduce in the
kernel.  Lowercasing is the ASCII map, which agrees with Python on all the
markup text the scraper matches against. -/

/-- Decides whether `pat` occurs as a contiguous substring of `hay`,
modelling the Python expression `pat in hay`. -/
def hasSub : List Char → List Char → Bool
  | [], pat => pat.isPrefixOf []
  | c :: t, pat => pat.isPrefixOf (c :: t) || hasSub t pat

/-- String-level substring containment: Python `pat in hay`. -/
def strContains (hay pat : String) : Bool :=
  hasSub hay.data pat.data

/-- ASCII lowercasing of a string, modelling Python `str.lower` on the
ASCII texts the source compares. -/
def lowerStr (s : String) : String :=
  ⟨s.data.map Char.toLower⟩

/-! ## Task types (class TaskType) -/

/-- The six task identifiers of the Python TaskType enum. -/
inductive TaskType where
  | daily_report
  | sunday_classes
  | sunday_marks
  | weekday_circle
  | weekday_normal
  | weekday_mark
deriving DecidableEq, Repr

/-! ## Configuration (class Config) -/

/-- Application configuration, mirroring the Config dataclass.  The
timezone field carries the same dataclass default as the source. -/
structure Config where
  ntfy_topic_url : String
  zoom_webhook_urls : List String
  zoom_verification_tokens : List String
  winners_mobile : String
  winners_password : String
  timezone : String := "Asia/Dubai"
deriving DecidableEq, Repr

/-- Python os.getenv with a default: the environment is a partial map from
variable names to values. -/
def getenv (env : String → Option String) (key dflt : String) : String :=
  (env key).getD dflt

/-- The comma-split-strip-filter comprehension used by Config.from_env for
the webhook URL and token lists. -/
def splitCommaStrip (s : String) : List String :=
  ((s.splitOn ",").map String.trim).filter (fun x => x ≠ "")

/-- Config.from_env: loads the configuration from environment variables.
As in the source, the timezone field is not read from the environment and
keeps its dataclass default. -/
def Config.from_env (env : String → Option String) : Config :=
  { ntfy_topic_url := getenv env "NTFY_TOPIC_URL" ""
    zoom_webhook_urls := splitCommaStrip (getenv env "ZOOM_WEBHOOK_URLS" "")
    zoom_verification_tokens := splitCommaStrip (getenv env "ZOOM_VERIFICATION_TOKENS" "")
    winners_mobile := getenv env "WINNERS_MOBILE_NUMBER" ""
    winners_password := getenv env "WINNERS_PASSWORD" "" }

/-- Config.validate: required-configuration validation.  Python falsiness
of a string is emptiness. -/
def Config.validate (c : Config) : Bool :=
  if c.winners_mobile = "" ∨ c.winners_password = "" then false
  else if c.zoom_webhook_urls.length ≠ c.zoom_verification_tokens.length then false
  else true

/-! ## Scraped data model (ClassInfo, ScrapedData) -/

/-- Information about a class, mirroring the ClassInfo dataclass. -/
structure ClassInfo where
  subject : String
  join_link : String
  mark_link : Option String := none
deriving DecidableEq, Repr

/-- The weekday link dictionary.  The source only ever writes the three
literal keys circle, normal and mark into data.weekday_links, so the
dictionary is embedded as one optional slot per role key. -/
structure WeekdayLinks where
  circle : Option ClassInfo := none
  normal : Option ClassInfo := none
  mark : Option ClassInfo := none
deriving DecidableEq, Repr

/-- Container for scraped class data, mirroring the ScrapedData dataclass. -/
structure ScrapedData where
  is_sunday : Bool
  sunday_classes : List ClassInfo
  weekday_links : WeekdayLinks
deriving DecidableEq, Repr

/-! ## HTML fragment model

BeautifulSoup itself is an external library; the scraper is embedded at the
level of the queries the source performs on the parsed document: the card
containers selected by div.p-4.border.rounded, the first h6 heading of a
card (its stripped text), and anchor elements with their single text child
and optional href attribute. -/

/-- An anchor element: its text child (absent when the anchor has no single
string child, in which case the BeautifulSoup string matcher skips it) and
its optional href attribute. -/
structure Anchor where
  text : Option String
  href : Option String
deriving DecidableEq, Repr

/-- A card container: its first h6 heading text (stripped), when present,
and its anchors in document order. -/
structure Card where
  h6 : Option String
  anchors : List Anchor
deriving DecidableEq, Repr

/-- The live-class document: the selected card containers and all anchors
of the whole document in order. -/
structure Html where
  cards : List Card
  anchors : List Anchor
deriving DecidableEq, Repr

/-- BeautifulSoup find of the first anchor whose string child satisfies a
predicate: anchors without a string child never match. -/
def findAnchor (p : String → Bool) (l : List Anchor) : Option Anchor :=
  l.find? (fun a =>
    match a.text with
    | some t => p t
    | none => false)

/-- The anchor-text predicate for join buttons: the text contains the
substring join meeting, case-insensitively. -/
def joinTextMatch (t : String) : Bool :=
  strContains (lowerStr t) "join meeting"

/-- The anchor-text predicate for mark buttons: the text contains the
substring mark, case-insensitively. -/
def markTextMatch (t : String) : Bool :=
  strContains (lowerStr t) "mark"

/-! ## Effects

Outbound interactions of one run, in chronological order. -/

/-- One observable outbound interaction. -/
inductive Effect where
  /-- an invocation of send_ntfy_alert: a call handed to the alert sink,
  with message and title -/
  | alert (msg title : String)
  /-- an HTTP post attempt to messaging webhook number idx -/
  | zoomPost (idx : Nat) (url token msg : String)
  /-- a deliberate pause of the given number of milliseconds -/
  | sleep (ms : Nat)
deriving DecidableEq, Repr

/-! ## Scheduler (class TaskScheduler) -/

/-- TaskScheduler.get_scheduled_task as a function of the local day
(Python weekday index, Monday = 0 and Sunday = 6), hour and minute. -/
def get_scheduled_task (day hour minute : Nat) : Option TaskType :=
  if hour = 8 ∧ minute < 15 then some TaskType.daily_report
  else if day = 6 then
    if hour = 17 ∧ minute < 15 then some TaskType.sunday_classes
    else if hour = 18 ∧ minute ≥ 55 then some TaskType.sunday_marks
    else none
  else
    if hour = 16 ∧ minute < 15 then some TaskType.weekday_circle
    else if hour = 17 ∧ minute < 15 then some TaskType.weekday_normal
    else if hour = 18 ∧ minute ≥ 55 then some TaskType.weekday_normal
    else if hour = 19 ∧ 15 ≤ minute ∧ minute < 30 then some TaskType.weekday_mark
    else none

/-- Modelled from the spec: the schedule decision table of spec section
4.5, written row by row from the spec words, with Sunday meaning local
weekday index 6 and weekday meaning any other index.  This is the
refinement counterpart that get_scheduled_task is compared against. -/
def scheduleTable (day hour minute : Nat) : Option TaskType :=
  if hour = 8 ∧ minute < 15 then some TaskType.daily_report
  else if day = 6 ∧ hour = 17 ∧ minute < 15 then some TaskType.sunday_classes
  else if day = 6 ∧ hour = 18 ∧ 55 ≤ minute then some TaskType.sunday_marks
  else if day ≠ 6 ∧ hour = 16 ∧ minute < 15 then some TaskType.weekday_circle
  else if day ≠ 6 ∧ hour = 17 ∧ minute < 15 then some TaskType.weekday_normal
  else if day ≠ 6 ∧ hour = 18 ∧ 55 ≤ minute then some TaskType.weekday_normal
  else if day ≠ 6 ∧ hour = 19 ∧ 15 ≤ minute ∧ minute < 30 then some TaskType.weekday_mark
  else none

/-! ## Notification service (class NotificationService)

send_to_zoom iterates the (URL, token) pairs; each post either succeeds or
raises, which is supplied by an oracle mapping the 1-based webhook number
to the outcome (on error, the exception text). -/

/-- The loop body of NotificationService.send_to_zoom over the enumerated
zip of webhook URLs and tokens, returning the effect trace and the success
count.  A pair with an empty URL or token is skipped; a failing post is
followed by a failure alert to the alert sink and does not stop the loop. -/
def zoom_loop (oracle : Nat → Except String Unit) (msg : String) :
    Nat → List (String × String) → List Effect × Nat
  | _, [] => ([], 0)
  | idx, p :: rest =>
    if p.1 = "" ∨ p.2 = "" then zoom_loop oracle msg (idx + 1) rest
    else
      let r := zoom_loop oracle msg (idx + 1) rest
      match oracle idx with
      | .ok _ =>
          (Effect.zoomPost idx (p.1 ++ "?format=message") p.2 msg :: r.1, r.2 + 1)
      | .error e =>
          (Effect.zoomPost idx (p.1 ++ "?format=message") p.2 msg ::
             Effect.alert ("Zoom webhook " ++ toString idx ++ " failed!\nError: " ++ e)
               "Zoom Webhook Error ❌" :: r.1,
           r.2)

/-- NotificationService.send_to_zoom: sends a message to every configured
webhook pair and reports success when at least one post succeeded.  With no
configured webhooks it returns failure immediately. -/
def send_to_zoom (cfg : Config) (oracle : Nat → Except String Unit) (msg : String) :
    List Effect × Bool :=
  if cfg.zoom_webhook_urls = [] then ([], false)
  else
    let r := zoom_loop oracle msg 1
      (cfg.zoom_webhook_urls.zip cfg.zoom_verification_tokens)
    (r.1, decide (0 < r.2))

/-! ## Scraper (class WinnersEduScraper) -/

/-- The per-card body of the Sunday parsing loop: a card with a heading and
a join-meeting anchor appends one ClassInfo; any other card is skipped. -/
def sundayStep (acc : List ClassInfo) (card : Card) : List ClassInfo :=
  match card.h6, findAnchor joinTextMatch card.anchors with
  | some subj, some jb =>
      acc ++ [{ subject := subj
                join_link := jb.href.getD ""
                mark_link := (findAnchor markTextMatch card.anchors).bind Anchor.href }]
  | _, _ => acc

/-- WinnersEduScraper._parse_sunday_classes over the card list. -/
def parse_sunday_classes (cards : List Card) : List ClassInfo :=
  cards.foldl sundayStep []

/-- The per-card body of the weekday parsing loop: a qualifying card
overwrites the circle slot when its heading contains study circle
(case-insensitively) and the normal slot otherwise. -/
def weekdayStep (wl : WeekdayLinks) (card : Card) : WeekdayLinks :=
  match card.h6, findAnchor joinTextMatch card.anchors with
  | some subj, some jb =>
      if strContains (lowerStr subj) "study circle" then
        { wl with circle := some { subject := subj, join_link := jb.href.getD "" } }
      else
        { wl with normal := some { subject := subj, join_link := jb.href.getD "" } }
  | _, _ => wl

/-- WinnersEduScraper._parse_weekday_classes: the card loop followed by the
document-wide search for the mark-attendance anchor. -/
def parse_weekday_classes (cards : List Card) (docAnchors : List Anchor) : WeekdayLinks :=
  let wl := cards.foldl weekdayStep {}
  match findAnchor markTextMatch docAnchors with
  | some mb => { wl with mark := some { subject := "Mark Attendance", join_link := mb.href.getD "" } }
  | none => wl

/-- WinnersEduScraper.scrape_live_classes: the fetch oracle gives either
the parsed live-class document or the text of the raised network, HTTP
status or parse exception (the traceback text used in the alert).  On an
exception the method alerts once and yields no data. -/
def scrape_live_classes (fetch : Except String Html) (day : Nat) :
    List Effect × Option ScrapedData :=
  match fetch with
  | .error e =>
      ([Effect.alert ("Failed to scrape WinnersEduWorld!\n\n" ++ e) "Scraping Error ❌"], none)
  | .ok soup =>
      let sundayFlag : Bool := day == 6
      let data : ScrapedData :=
        if sundayFlag then
          { is_sunday := sundayFlag
            sunday_classes := parse_sunday_classes soup.cards
            weekday_links := {} }
        else
          { is_sunday := sundayFlag
            sunday_classes := []
            weekday_links := parse_weekday_classes soup.cards soup.anchors }
      ([], some data)

/-- WinnersEduScraper.login: the oracle yields the exception text when the
credential post raises, or the final response URL otherwise; reaching a URL
without the dashboard substring raises a connectivity error that is caught
and alerted like any other exception. -/
def login (loginResult : Except String String) : List Effect × Bool :=
  match loginResult with
  | .error e =>
      ([Effect.alert ("Login to WinnersEduWorld failed!\nError: " ++ e) "Login Error ❌"], false)
  | .ok finalUrl =>
      if strContains finalUrl "dashboard" then ([], true)
      else
        ([Effect.alert
            ("Login to WinnersEduWorld failed!\nError: Login failed - dashboard not reached. Check credentials.")
            "Login Error ❌"], false)

/-- The network oracles of one run: the login outcome, the live-class fetch
outcome, and the per-webhook delivery outcome. -/
structure Oracles where
  loginResult : Except String String
  fetchResult : Except String Html
  zoom : Nat → Except String Unit

/-- WinnersEduScraper.get_data: login, then scrape; a failed login yields
no data. -/
def get_data (o : Oracles) (day : Nat) : List Effect × Option ScrapedData :=
  let l := login o.loginResult
  if l.2 then
    let s := scrape_live_classes o.fetchResult day
    (l.1 ++ s.1, s.2)
  else (l.1, none)

/-! ## Task executor (class TaskExecutor) -/

/-- TaskExecutor._format_message. -/
def format_message (subject link pfx : String) : String :=
  String.intercalate "\n"
    (["*" ++ subject ++ "*", link] ++
      (if pfx = "" then [] else ["\n[" ++ pfx ++ "]"]) ++
      ["\n_(automated)_"])

/-- TaskExecutor._send_weekday_link on the looked-up role entry. -/
def send_weekday_link (cfg : Config) (oracle : Nat → Except String Unit)
    (entry : Option ClassInfo) (pfx : String) : List Effect :=
  match entry with
  | none =>
      [Effect.alert ("Could not find \x27" ++ pfx ++ "\x27 link for weekday!") "Data Missing ⚠️"]
  | some ci => (send_to_zoom cfg oracle (format_message ci.subject ci.join_link pfx)).1

/-- TaskExecutor._dispatch_task on already-scraped data. -/
def dispatch_task (cfg : Config) (oracle : Nat → Except String Unit)
    (t : TaskType) (data : ScrapedData) : List Effect :=
  match t with
  | .daily_report => []
  | .sunday_classes =>
      if data.sunday_classes.isEmpty then
        [Effect.alert "No Sunday classes found!" "Data Missing ⚠️"]
      else
        data.sunday_classes.flatMap (fun ci =>
          (send_to_zoom cfg oracle (format_message ci.subject ci.join_link "Sunday Class")).1)
  | .sunday_marks =>
      let mark_classes := data.sunday_classes.filter (fun c => c.mark_link.isSome)
      if mark_classes.isEmpty then
        [Effect.alert "No Sunday mark links found!" "Data Missing ⚠️"]
      else
        mark_classes.flatMap (fun ci =>
          (send_to_zoom cfg oracle
            (format_message ("Mark Attendance - " ++ ci.subject) (ci.mark_link.getD "")
              "Sunday Marks")).1)
  | .weekday_circle => send_weekday_link cfg oracle data.weekday_links.circle "STUDY CIRCLE"
  | .weekday_normal => send_weekday_link cfg oracle data.weekday_links.normal "NORMAL CLASS"
  | .weekday_mark => send_weekday_link cfg oracle data.weekday_links.mark "MARK ATTENDANCE"

/-- TaskExecutor._run_daily_report: a scrape as a connectivity probe,
followed by one status alert (nowStr is the formatted local timestamp). -/
def run_daily_report (o : Oracles) (day : Nat) (nowStr : String) : List Effect :=
  let g := get_data o day
  let status := if g.2.isSome then "✅ All systems operational!" else "❌ Site access failed"
  g.1 ++ [Effect.alert ("Daily Status Report\n\n" ++ status ++ "\nTime: " ++ nowStr)
    "Daily Health Check"]

/-- TaskExecutor.execute. -/
def execute (cfg : Config) (o : Oracles) (day : Nat) (nowStr : String)
    (t : TaskType) : List Effect :=
  match t with
  | .daily_report => run_daily_report o day nowStr
  | _ =>
      let g := get_data o day
      match g.2 with
      | none => g.1
      | some data => g.1 ++ dispatch_task cfg o.zoom t data

/-! ## Main entry point (function main) -/

/-- main: loads and validates the configuration, then runs at most the one
scheduled task.  The result is the process exit code paired with the trace
of outbound interactions of the whole run. -/
def main_run (env : String → Option String) (o : Oracles)
    (day hour minute : Nat) (nowStr : String) : Nat × List Effect :=
  let config := Config.from_env env
  if config.validate then
    match get_scheduled_task day hour minute with
    | some task => (0, execute config o day nowStr task)
    | none => (0, [])
  else (1, [])

/-! ## Derived definitions and concrete fixtures used by the theorems -/

/-- Concrete oracles used by witnesses: every network interaction fails. -/
def oraclesDown : Oracles :=
  { loginResult := Except.error "down"
    fetchResult := Except.error "down"
    zoom := fun _ => Except.error "down" }

/-- The empty live-class document. -/
def htmlEmpty : Html := { cards := [], anchors := [] }

/-- The entry a single card contributes to the Sunday class list: one
ClassInfo when the card has a heading and a join-meeting anchor, nothing
otherwise. -/
def sundayEntry (card : Card) : Option ClassInfo :=
  match card.h6, findAnchor joinTextMatch card.anchors with
  | some subj, some jb =>
      some { subject := subj
             join_link := jb.href.getD ""
             mark_link := (findAnchor markTextMatch card.anchors).bind Anchor.href }
  | _, _ => none

/-- Sunday fixture card with a heading, a join anchor and a mark anchor. -/
def sunCard1 : Card :=
  { h6 := some "Medical Coding"
    anchors := [{ text := some "Join Meeting", href := some "https://zoom.example/join1" },
                { text := some "Mark Attendance", href := some "https://zoom.example/mark1" }] }

/-- Sunday fixture card lacking a heading. -/
def sunCard2 : Card :=
  { h6 := none
    anchors := [{ text := some "Join Meeting", href := some "https://zoom.example/join2" }] }

/-- Sunday fixture card lacking a join anchor. -/
def sunCard3 : Card :=
  { h6 := some "Physics"
    anchors := [{ text := some "Recording", href := some "https://zoom.example/rec" }] }

/-- The circle-role entry a single weekday card contributes: set only when
the card qualifies and its heading contains study circle. -/
def circleEntry (card : Card) : Option ClassInfo :=
  match card.h6, findAnchor joinTextMatch card.anchors with
  | some subj, some jb =>
      if strContains (lowerStr subj) "study circle" then
        some { subject := subj, join_link := jb.href.getD "" }
      else none
  | _, _ => none

/-- The normal-role entry a single weekday card contributes: set only when
the card qualifies and its heading does not contain study circle. -/
def normalEntry (card : Card) : Option ClassInfo :=
  match card.h6, findAnchor joinTextMatch card.anchors with
  | some subj, some jb =>
      if strContains (lowerStr subj) "study circle" then none
      else some { subject := subj, join_link := jb.href.getD "" }
  | _, _ => none

/-- Weekday fixture card whose heading omits study circle. -/
def wkCardA : Card :=
  { h6 := some "Mathematics"
    anchors := [{ text := some "Join Meeting", href := some "https://zoom.example/a" }] }

/-- Second weekday fixture card whose heading also omits study circle. -/
def wkCardB : Card :=
  { h6 := some "Physics"
    anchors := [{ text := some "Join Meeting Now", href := some "https://zoom.example/b" }] }

/-- Success test for a delivery outcome. -/
def exOk : Except String Unit → Bool
  | .ok _ => true
  | .error _ => false

/-- The exception text of a delivery outcome (empty on success). -/
def errMsg : Except String Unit → String
  | .ok _ => ""
  | .error e => e

/-- The webhook number of a post-attempt effect. -/
def postIdxOf : Effect → Option Nat
  | .zoomPost i _ _ _ => some i
  | _ => none

/-- The message and title of an alert-sink effect. -/
def alertOf : Effect → Option (String × String)
  | .alert m t => some (m, t)
  | _ => none

/-- Recognises a pause effect. -/
def isSleepE : Effect → Bool
  | .sleep _ => true
  | _ => false

/-- Recognises a webhook post-attempt effect. -/
def isPostE : Effect → Bool
  | .zoomPost _ _ _ _ => true
  | _ => false

/-- The enumerated (number, URL, token) pairs the send loop iterates:
Python enumerate(zip(urls, tokens), 1). -/
def zoomPairs (cfg : Config) : List (Nat × String × String) :=
  List.enumFrom 1 (cfg.zoom_webhook_urls.zip cfg.zoom_verification_tokens)

/-- An enumerated pair is eligible when neither its URL nor its token is
empty, matching the skip test of the send loop. -/
def eligiblePair (p : Nat × String × String) : Bool :=
  decide (p.2.1 ≠ "" ∧ p.2.2 ≠ "")

/-- Configuration with no messaging webhooks, used by witnesses. -/
def cfgNoHooks : Config :=
  { ntfy_topic_url := ""
    zoom_webhook_urls := []
    zoom_verification_tokens := []
    winners_mobile := "m"
    winners_password := "p" }

/-- Configuration with two messaging webhook pairs, used by the claim C4
counterexample. -/
def cfgTwoHooks : Config :=
  { ntfy_topic_url := ""
    zoom_webhook_urls := ["https://zoom.example/hook1", "https://zoom.example/hook2"]
    zoom_verification_tokens := ["tok1", "tok2"]
    winners_mobile := "m"
    winners_password := "p" }

/-! ## Helper lemmas -/

/-- Reflexivity of the list prefix test. -/
theorem isPrefixOf_self (l : List Char) : l.isPrefixOf l = true := by
  induction l with
  | nil => rfl
  | cons c t ih => simp [List.isPrefixOf, ih]

/-- A suffix occurs as a substring. -/
theorem hasSub_append (pre pat : List Char) : hasSub (pre ++ pat) pat = true := by
  induction pre with
  | nil =>
      cases pat with
      | nil => rfl
      | cons c t => simp [hasSub, isPrefixOf_self]
  | cons c t ih => simp [hasSub, ih]

/-! ## Claim C1 -/

set_option maxHeartbeats 4000000 in
/-- Claim C1: the schedule selector is a deterministic total function of
the local (day, hour, minute) triple, agreeing everywhere with the decision
table of spec section 4.5 (with the daily-report window checked first,
independent of the day), and in particular Sunday 17:10 yields the Sunday
classes task, Sunday 18:56 the Sunday marks task, Wednesday 19:20 the
weekday mark task, and Wednesday 20:00 no task. -/
theorem schedule_matches_spec_table :
    (∀ day hour minute, get_scheduled_task day hour minute = scheduleTable day hour minute)
    ∧ get_scheduled_task 6 17 10 = some TaskType.sunday_classes
    ∧ get_scheduled_task 6 18 56 = some TaskType.sunday_marks
    ∧ get_scheduled_task 2 19 20 = some TaskType.weekday_mark
    ∧ get_scheduled_task 2 20 0 = none := by
  refine ⟨?_, by decide, by decide, by decide, by decide⟩
  intro day hour minute
  unfold get_scheduled_task scheduleTable
  split_ifs <;> first | rfl | omega

/-! ## Claim C9 -/

set_option maxHeartbeats 2000000 in
/-- Claim C9: every day index other than 6 (Sunday), including Saturday
(index 5), takes the weekday branch: Saturday 16:00 to 16:14 yields the
weekday study-circle task, and no non-Sunday time ever yields either
Sunday task. -/
theorem saturday_is_weekday :
    (∀ minute, minute < 15 → get_scheduled_task 5 16 minute = some TaskType.weekday_circle)
    ∧ (∀ day hour minute, day ≠ 6 →
        get_scheduled_task day hour minute ≠ some TaskType.sunday_classes
        ∧ get_scheduled_task day hour minute ≠ some TaskType.sunday_marks) := by
  constructor
  · intro minute hm
    unfold get_scheduled_task
    split_ifs <;> first | rfl | omega
  · intro day hour minute hd
    unfold get_scheduled_task
    split_ifs <;> simp_all

/-- Witness for claim C9 at Saturday 16:10 and Saturday 17:00. -/
theorem saturday_is_weekday_witness :
    get_scheduled_task 5 16 10 = some TaskType.weekday_circle
    ∧ get_scheduled_task 5 17 0 ≠ some TaskType.sunday_classes :=
  ⟨saturday_is_weekday.1 10 (by decide), (saturday_is_weekday.2 5 17 0 (by decide)).1⟩

/-! ## Claim C3 -/

/-- Counterexample to claim C3: no environment whatsoever makes the loaded
timezone differ from the default, because Config.from_env never reads a
timezone variable. -/
theorem no_env_overrides_timezone :
    ¬ ∃ env : String → Option String, (Config.from_env env).timezone ≠ "Asia/Dubai" := by
  rintro ⟨env, h⟩
  exact h rfl

/-- Claim C3 as amended: the configuration loader reads no timezone
override; for every environment the timezone is the dataclass default
Asia/Dubai. -/
theorem from_env_timezone_is_default :
    ∀ env : String → Option String, (Config.from_env env).timezone = "Asia/Dubai" :=
  fun _ => rfl

/-! ## Claim C7 -/

/-- Claim C7: when the live-class fetch raises (network, HTTP-status or
parse exception with traceback text e), the scrape hands the alert sink
exactly one call, whose message contains e, and returns no data rather
than a partially populated ScrapedData. -/
theorem scrape_failure_alerts_once :
    ∀ (e : String) (day : Nat),
      scrape_live_classes (Except.error e) day =
        ([Effect.alert ("Failed to scrape WinnersEduWorld!\n\n" ++ e) "Scraping Error ❌"], none)
      ∧ strContains ("Failed to scrape WinnersEduWorld!\n\n" ++ e) e = true := by
  intro e day
  refine ⟨rfl, ?_⟩
  unfold strContains
  rw [String.data_append]
  exact hasSub_append _ _

/-! ## Claim C2 -/

/-- Claim C2: whenever the loaded configuration has a webhook-URL count
different from the token count, or lacks the portal mobile number or the
password, validation fails and the whole run exits with the non-zero code
1 while the outbound-interaction trace stays empty: no network call is
performed. -/
theorem invalid_config_exits_without_network :
    ∀ (env : String → Option String) (o : Oracles) (day hour minute : Nat) (nowStr : String),
      ((Config.from_env env).winners_mobile = ""
        ∨ (Config.from_env env).winners_password = ""
        ∨ (Config.from_env env).zoom_webhook_urls.length
            ≠ (Config.from_env env).zoom_verification_tokens.length) →
      (Config.from_env env).validate = false
      ∧ main_run env o day hour minute nowStr = (1, []) := by
  intro env o day hour minute nowStr h
  have hv : (Config.from_env env).validate = false := by
    unfold Config.validate
    rcases h with h | h | h
    · simp [h]
    · simp [h]
    · split_ifs <;> simp_all
  refine ⟨hv, ?_⟩
  unfold main_run
  simp [hv]

/-- Witness for claim C2 on the empty environment, where the mobile number
is absent. -/
theorem invalid_config_exits_without_network_witness :
    (Config.from_env (fun _ => none)).validate = false
    ∧ main_run (fun _ => none) oraclesDown 2 17 10 "now" = (1, []) :=
  invalid_config_exits_without_network (fun _ => none) oraclesDown 2 17 10 "now" (Or.inl rfl)

/-! ## Claim C10 -/

/-- Claim C10: day exclusivity of every successful scrape result.  When
the is_sunday flag is set the weekday dictionary is empty, and when it is
clear the Sunday class list is empty; the two containers are never both
populated. -/
theorem scrape_day_exclusivity :
    ∀ (fetch : Except String Html) (day : Nat) (data : ScrapedData),
      (scrape_live_classes fetch day).2 = some data →
      (data.is_sunday = true → data.weekday_links = ⟨none, none, none⟩)
      ∧ (data.is_sunday = false → data.sunday_classes = []) := by
  intro fetch day data h
  cases fetch with
  | error e => simp [scrape_live_classes] at h
  | ok soup =>
      by_cases hd : day = 6
      · subst hd
        have h2 : data =
            { is_sunday := true
              sunday_classes := parse_sunday_classes soup.cards
              weekday_links := ⟨none, none, none⟩ } := by
          simpa [scrape_live_classes] using h.symm
        subst h2
        exact ⟨fun _ => rfl, (fun hf => nomatch hf)⟩
      · have hb : (day == 6) = false := by simp [hd]
        have h2 : data =
            { is_sunday := false
              sunday_classes := []
              weekday_links := parse_weekday_classes soup.cards soup.anchors } := by
          simpa [scrape_live_classes, hd, hb] using h.symm
        subst h2
        exact ⟨(fun ht => nomatch ht), fun _ => rfl⟩

/-- Witness for claim C10 on a weekday scrape of the empty document. -/
theorem scrape_day_exclusivity_witness :
    ((false : Bool) = true → (⟨none, none, none⟩ : WeekdayLinks) = ⟨none, none, none⟩)
    ∧ ((false : Bool) = false → ([] : List ClassInfo) = []) :=
  scrape_day_exclusivity (Except.ok htmlEmpty) 2
    { is_sunday := false, sunday_classes := [], weekday_links := ⟨none, none, none⟩ } rfl

/-! ## Claim C6 -/

/-- The Sunday loop body appends exactly the one-card entry. -/
theorem sundayStep_eq (acc : List ClassInfo) (card : Card) :
    sundayStep acc card = acc ++ (sundayEntry card).toList := by
  cases h6 : card.h6 <;> cases hj : findAnchor joinTextMatch card.anchors <;>
    simp [sundayStep, sundayEntry, h6, hj]

/-- The Sunday loop is a filterMap on top of its accumulator. -/
theorem parse_sunday_foldl (cards : List Card) :
    ∀ acc : List ClassInfo,
      cards.foldl sundayStep acc = acc ++ cards.filterMap sundayEntry := by
  induction cards with
  | nil => intro acc; simp
  | cons c cs ih =>
      intro acc
      rw [List.foldl_cons, sundayStep_eq, ih, List.filterMap_cons]
      cases h : sundayEntry c <;> simp [h]

/-- Claim C6: every Sunday scrape yields exactly one ClassInfo per card
that has both a heading and a join-meeting anchor (case-insensitive text
match), carrying the heading as subject, that anchor link as join link and
an optional mark link, while cards lacking a heading or a join anchor
contribute no entry; the three-card fixture yields exactly one entry. -/
theorem sunday_parse_one_per_card :
    (∀ cards, parse_sunday_classes cards = cards.filterMap sundayEntry)
    ∧ (∀ card subj jb, card.h6 = some subj →
        findAnchor joinTextMatch card.anchors = some jb →
        sundayEntry card = some { subject := subj
                                  join_link := jb.href.getD ""
                                  mark_link := (findAnchor markTextMatch card.anchors).bind Anchor.href })
    ∧ (∀ card, card.h6 = none ∨ findAnchor joinTextMatch card.anchors = none →
        sundayEntry card = none)
    ∧ parse_sunday_classes [sunCard1, sunCard2, sunCard3] =
        [{ subject := "Medical Coding"
           join_link := "https://zoom.example/join1"
           mark_link := some "https://zoom.example/mark1" }] := by
  refine ⟨?_, ?_, ?_, by decide⟩
  · intro cards
    simpa using parse_sunday_foldl cards []
  · intro card subj jb h1 h2
    simp [sundayEntry, h1, h2]
  · intro card h
    cases h6 : card.h6 <;> cases hj : findAnchor joinTextMatch card.anchors <;>
      simp_all [sundayEntry]

/-- Witness for claim C6 on the fixture cards. -/
theorem sunday_parse_one_per_card_witness :
    sundayEntry sunCard1 = some { subject := "Medical Coding"
                                  join_link := "https://zoom.example/join1"
                                  mark_link := some "https://zoom.example/mark1" }
    ∧ sundayEntry sunCard2 = none :=
  ⟨sunday_parse_one_per_card.2.1 sunCard1 "Medical Coding"
      { text := some "Join Meeting", href := some "https://zoom.example/join1" } rfl rfl,
    sunday_parse_one_per_card.2.2.1 sunCard2 (Or.inl rfl)⟩

/-! ## Claim C5 -/

/-- The weekday loop body overwrites the circle slot exactly with the
one-card circle entry. -/
theorem weekdayStep_circle (wl : WeekdayLinks) (card : Card) :
    (weekdayStep wl card).circle = (circleEntry card).or wl.circle := by
  cases h6 : card.h6 <;> cases hj : findAnchor joinTextMatch card.anchors <;>
    simp [weekdayStep, circleEntry, h6, hj]
  split <;> simp [Option.or]

/-- The weekday loop body overwrites the normal slot exactly with the
one-card normal entry. -/
theorem weekdayStep_normal (wl : WeekdayLinks) (card : Card) :
    (weekdayStep wl card).normal = (normalEntry card).or wl.normal := by
  cases h6 : card.h6 <;> cases hj : findAnchor joinTextMatch card.anchors <;>
    simp [weekdayStep, normalEntry, h6, hj]
  split <;> simp [Option.or]

/-- getLast? of a cons in terms of Option.or. -/
theorem getLast_cons_eq_or {α : Type} (l : List α) :
    ∀ x : α, (x :: l).getLast? = l.getLast?.or (some x) := by
  induction l with
  | nil => intro x; simp
  | cons b t ih =>
      intro x
      rw [List.getLast?_cons_cons, ih b, Option.or_assoc]
      rfl

/-- The weekday card loop keeps the last circle entry, on top of its
starting value. -/
theorem weekday_foldl_circle (cards : List Card) :
    ∀ wl : WeekdayLinks,
      (cards.foldl weekdayStep wl).circle = ((cards.filterMap circleEntry).getLast?).or wl.circle := by
  induction cards with
  | nil => intro wl; simp
  | cons c cs ih =>
      intro wl
      rw [List.foldl_cons, ih, List.filterMap_cons, weekdayStep_circle]
      cases h : circleEntry c
      · simp
      · rw [getLast_cons_eq_or, Option.or_assoc]

/-- The weekday card loop keeps the last normal entry, on top of its
starting value. -/
theorem weekday_foldl_normal (cards : List Card) :
    ∀ wl : WeekdayLinks,
      (cards.foldl weekdayStep wl).normal = ((cards.filterMap normalEntry).getLast?).or wl.normal := by
  induction cards with
  | nil => intro wl; simp
  | cons c cs ih =>
      intro wl
      rw [List.foldl_cons, ih, List.filterMap_cons, weekdayStep_normal]
      cases h : normalEntry c
      · simp
      · rw [getLast_cons_eq_or, Option.or_assoc]

/-- Claim C5: on a weekday scrape every card with a heading and a join
anchor is classified by whether its heading contains study circle
(case-insensitively) into the circle role or else the normal role, with
only the last-processed entry of each role retained; in particular, for
the two-card fixture whose headings both omit study circle, exactly the
second card survives under the normal role. -/
theorem weekday_parse_last_wins :
    (∀ cards docAnchors,
        (parse_weekday_classes cards docAnchors).circle = (cards.filterMap circleEntry).getLast?
        ∧ (parse_weekday_classes cards docAnchors).normal = (cards.filterMap normalEntry).getLast?)
    ∧ (∀ card subj jb, card.h6 = some subj →
        findAnchor joinTextMatch card.anchors = some jb →
        (strContains (lowerStr subj) "study circle" = true →
            circleEntry card = some { subject := subj, join_link := jb.href.getD "" }
            ∧ normalEntry card = none)
        ∧ (strContains (lowerStr subj) "study circle" = false →
            normalEntry card = some { subject := subj, join_link := jb.href.getD "" }
            ∧ circleEntry card = none))
    ∧ parse_weekday_classes [wkCardA, wkCardB] [] =
        { circle := none
          normal := some { subject := "Physics", join_link := "https://zoom.example/b" }
          mark := none } := by
  refine ⟨?_, ?_, by decide⟩
  · intro cards docAnchors
    constructor <;>
      · unfold parse_weekday_classes
        cases h : findAnchor markTextMatch docAnchors <;>
          simp [h, weekday_foldl_circle, weekday_foldl_normal]
  · intro card subj jb h1 h2
    constructor <;> intro hc <;> simp [circleEntry, normalEntry, h1, h2, hc]

/-- Witness for claim C5 on the second fixture card. -/
theorem weekday_parse_last_wins_witness :
    normalEntry wkCardB = some { subject := "Physics", join_link := "https://zoom.example/b" }
    ∧ circleEntry wkCardB = none :=
  (weekday_parse_last_wins.2.1 wkCardB "Physics"
      { text := some "Join Meeting Now", href := some "https://zoom.example/b" } rfl rfl).2
    (by decide)

/-! ## Claims C8 and C4 -/

/-- Characterisation of the send loop: the attempted webhook numbers are
exactly the eligible enumerated pairs in order (independent of any
outcome), the success count counts the successful eligible pairs, each
failing eligible pair hands the alert sink one failure call with the
exception text, and the loop never pauses. -/
theorem zoom_loop_spec (oracle : Nat → Except String Unit) (msg : String) :
    ∀ (l : List (String × String)) (idx : Nat),
      ((zoom_loop oracle msg idx l).1.filterMap postIdxOf
          = ((List.enumFrom idx l).filter eligiblePair).map Prod.fst)
      ∧ ((zoom_loop oracle msg idx l).2
          = ((List.enumFrom idx l).filter eligiblePair).countP (fun p => exOk (oracle p.1)))
      ∧ ((zoom_loop oracle msg idx l).1.filterMap alertOf
          = (((List.enumFrom idx l).filter eligiblePair).filter (fun p => !exOk (oracle p.1))).map
              (fun p => ("Zoom webhook " ++ toString p.1 ++ " failed!\nError: " ++ errMsg (oracle p.1),
                         "Zoom Webhook Error ❌")))
      ∧ ((zoom_loop oracle msg idx l).1.countP isSleepE = 0) := by
  intro l
  induction l with
  | nil => intro idx; simp [zoom_loop]
  | cons p rest ih =>
      intro idx
      obtain ⟨ih1, ih2, ih3, ih4⟩ := ih (idx + 1)
      by_cases hp : p.1 = "" ∨ p.2 = ""
      · have he : eligiblePair (idx, p) = false := by
          simp only [eligiblePair, decide_eq_false_iff_not]
          tauto
        simp [zoom_loop, hp, List.enumFrom_cons, List.filter_cons, he, ih1, ih2, ih3, ih4]
      · have he : eligiblePair (idx, p) = true := by
          simp only [eligiblePair, decide_eq_true_eq]
          tauto
        cases ho : oracle idx with
        | ok u =>
            simp [zoom_loop, hp, ho, List.enumFrom_cons, List.filter_cons, he, exOk,
              postIdxOf, alertOf, isSleepE, List.countP_cons, ih1, ih2, ih3, ih4]
        | error e =>
            simp [zoom_loop, hp, ho, List.enumFrom_cons, List.filter_cons, he, exOk, errMsg,
              postIdxOf, alertOf, isSleepE, List.countP_cons, ih1, ih2, ih3, ih4]

/-- Claim C8: the messaging send attempts every configured eligible (URL,
token) pair regardless of other pairs failing, relays each failure to the
alert sink, returns success exactly when at least one pair succeeded, and
with zero configured webhooks returns failure with no outbound effect at
all (and no exception, being a total function). -/
theorem zoom_send_all_pairs :
    ∀ (cfg : Config) (oracle : Nat → Except String Unit) (msg : String),
      ((send_to_zoom cfg oracle msg).2 = true
          ↔ ∃ p ∈ (zoomPairs cfg).filter eligiblePair, exOk (oracle p.1) = true)
      ∧ ((send_to_zoom cfg oracle msg).1.filterMap postIdxOf
          = ((zoomPairs cfg).filter eligiblePair).map Prod.fst)
      ∧ ((send_to_zoom cfg oracle msg).1.filterMap alertOf
          = (((zoomPairs cfg).filter eligiblePair).filter (fun p => !exOk (oracle p.1))).map
              (fun p => ("Zoom webhook " ++ toString p.1 ++ " failed!\nError: " ++ errMsg (oracle p.1),
                         "Zoom Webhook Error ❌")))
      ∧ (cfg.zoom_webhook_urls = [] → send_to_zoom cfg oracle msg = ([], false)) := by
  intro cfg oracle msg
  by_cases h : cfg.zoom_webhook_urls = []
  · have hz : zoomPairs cfg = [] := by simp [zoomPairs, h]
    simp [send_to_zoom, h, hz]
  · obtain ⟨h1, h2, h3⟩ :=
      zoom_loop_spec oracle msg (cfg.zoom_webhook_urls.zip cfg.zoom_verification_tokens) 1
    refine ⟨?_, ?_, ?_, fun hc => absurd hc h⟩
    · simp only [send_to_zoom, h, if_false, decide_eq_true_eq, zoomPairs]
      rw [h2]
      exact List.countP_pos_iff
    · simp only [send_to_zoom, h, if_false, zoomPairs]
      exact h1
    · simp only [send_to_zoom, h, if_false, zoomPairs]
      exact h3.1

/-- Witness for claim C8 with zero configured webhooks. -/
theorem zoom_send_all_pairs_witness :
    send_to_zoom cfgNoHooks (fun _ => Except.ok ()) "hello" = ([], false) :=
  (zoom_send_all_pairs cfgNoHooks (fun _ => Except.ok ()) "hello").2.2.2 rfl

/-- Counterexample to claim C4: a configuration with two eligible webhook
pairs whose send performs two successive posts with no pause effect at
all, so no fixed sequential delay is inserted between the posts. -/
theorem zoom_send_no_delay_counterexample :
    2 ≤ cfgTwoHooks.zoom_webhook_urls.length
    ∧ (send_to_zoom cfgTwoHooks (fun _ => Except.ok ()) "hello").1.countP isPostE = 2
    ∧ (send_to_zoom cfgTwoHooks (fun _ => Except.ok ()) "hello").1.countP isSleepE = 0 := by
  decide

/-- Claim C4 as amended: the messaging send inserts no delay between
successive webhook posts; its effect trace never contains a pause, for any
configuration, delivery outcome and message. -/
theorem zoom_send_no_delay :
    ∀ (cfg : Config) (oracle : Nat → Except String Unit) (msg : String),
      (send_to_zoom cfg oracle msg).1.countP isSleepE = 0 := by
  intro cfg oracle msg
  by_cases h : cfg.zoom_webhook_urls = []
  · simp [send_to_zoom, h]
  · simpa [send_to_zoom, h] using
      (zoom_loop_spec oracle msg (cfg.zoom_webhook_urls.zip cfg.zoom_verification_tokens) 1).2.2.2
